import Mathlib

/-!
Verification development for the ALVR adaptive streaming pipeline
(repository `deiteris/ALVR`, files `src/alvr/client_core/cpp/bindings.h`
and `src/alvr/server/cpp/alvr_server/Settings.h`).

Shallow embedding conventions:
* C scalar types are modelled by `CTy`; `float`/`double` values are
  modelled by `ℚ` (no floating-point arithmetic is reasoned about, only
  record shape and order comparisons), unsigned integers by `ℕ`, signed
  integers by `ℤ`, `std::string` by `String`.
* Each C struct/class is embedded twice where useful: as a Lean
  `structure` carrying the values, and as a field-descriptor list
  (`List (String × CTy)`) recording the exact declared fields in order,
  which lets record-shape claims be decided by `decide`.
* Components of the pipeline whose implementation is not part of the two
  source files (BitrateController, FrameScheduler, FoveationMapper,
  StreamConfigNegotiator) are modelled from the specification text; each
  such definition's doc comment says so explicitly.
-/

namespace ALVR

/-- Scalar and array type shapes of the C declarations. -/
inductive CTy where
  | cuint : CTy
  | cuint32 : CTy
  | cuint64 : CTy
  | cint : CTy
  | cint32 : CTy
  | cint64 : CTy
  | cbool : CTy
  | cfloat : CTy
  | cdouble : CTy
  | cstring : CTy
  | floatArr : Nat → CTy
  | doubleArr : Nat → CTy
  | eyeFovArr : Nat → CTy
  deriving DecidableEq, Repr

/-! ## `bindings.h` : client core boundary -/

/-- `struct EyeInput` from `bindings.h`: per-eye pose input handed to the
native renderer. `orientation` is a quaternion (x, y, z, w), `position`
a 3-vector, followed by the four field-of-view angles. -/
structure EyeInput where
  orientation : Fin 4 → ℚ
  position : Fin 3 → ℚ
  fovLeft : ℚ
  fovRight : ℚ
  fovTop : ℚ
  fovBottom : ℚ

/-- The declared fields of `struct EyeInput`, in order. -/
def eyeInputFields : List (String × CTy) :=
  [("orientation", CTy.floatArr 4),
   ("position", CTy.floatArr 3),
   ("fovLeft", CTy.cfloat),
   ("fovRight", CTy.cfloat),
   ("fovTop", CTy.cfloat),
   ("fovBottom", CTy.cfloat)]

/-- `struct StreamConfigInput` from `bindings.h`: the negotiated stream
configuration consumed by the client's native layer. -/
structure StreamConfigInput where
  viewWidth : Nat
  viewHeight : Nat
  enableFoveation : Bool
  foveationCenterSizeX : ℚ
  foveationCenterSizeY : ℚ
  foveationCenterShiftX : ℚ
  foveationCenterShiftY : ℚ
  foveationEdgeRatioX : ℚ
  foveationEdgeRatioY : ℚ
  deriving DecidableEq

/-- The declared fields of `struct StreamConfigInput`, in order. -/
def streamConfigInputFields : List (String × CTy) :=
  [("viewWidth", CTy.cuint),
   ("viewHeight", CTy.cuint),
   ("enableFoveation", CTy.cbool),
   ("foveationCenterSizeX", CTy.cfloat),
   ("foveationCenterSizeY", CTy.cfloat),
   ("foveationCenterShiftX", CTy.cfloat),
   ("foveationCenterShiftY", CTy.cfloat),
   ("foveationEdgeRatioX", CTy.cfloat),
   ("foveationEdgeRatioY", CTy.cfloat)]

/-- Modelled from the spec: the conceptual negotiation wire message
`{viewWidth, viewHeight, foveationEnabled, centerSizeX/Y, centerShiftX/Y,
edgeRatioX/Y}` of section 6 (the wire-format serializer itself is not
among the source files). This definition follows the spec's words so it
can be compared with `StreamConfigInput`, which follows the source. -/
structure NegotiationWireMessage where
  viewWidth : Nat
  viewHeight : Nat
  foveationEnabled : Bool
  centerSizeX : ℚ
  centerSizeY : ℚ
  centerShiftX : ℚ
  centerShiftY : ℚ
  edgeRatioX : ℚ
  edgeRatioY : ℚ
  deriving DecidableEq

/-- The fields of the conceptual wire message, in the spec's order. -/
def negotiationWireFields : List (String × CTy) :=
  [("viewWidth", CTy.cuint),
   ("viewHeight", CTy.cuint),
   ("foveationEnabled", CTy.cbool),
   ("centerSizeX", CTy.cfloat),
   ("centerSizeY", CTy.cfloat),
   ("centerShiftX", CTy.cfloat),
   ("centerShiftY", CTy.cfloat),
   ("edgeRatioX", CTy.cfloat),
   ("edgeRatioY", CTy.cfloat)]

/-- Field-by-field translation of a client `StreamConfigInput` record into
the negotiation wire message. -/
def StreamConfigInput.toWire (c : StreamConfigInput) : NegotiationWireMessage :=
  ⟨c.viewWidth, c.viewHeight, c.enableFoveation,
   c.foveationCenterSizeX, c.foveationCenterSizeY,
   c.foveationCenterShiftX, c.foveationCenterShiftY,
   c.foveationEdgeRatioX, c.foveationEdgeRatioY⟩

/-- Field-by-field parse of a negotiation wire message into the client
`StreamConfigInput` record. -/
def NegotiationWireMessage.toConfig (w : NegotiationWireMessage) : StreamConfigInput :=
  ⟨w.viewWidth, w.viewHeight, w.foveationEnabled,
   w.centerSizeX, w.centerSizeY,
   w.centerShiftX, w.centerShiftY,
   w.edgeRatioX, w.edgeRatioY⟩

end ALVR

namespace ALVR

/-- C1: the negotiation wire message is an exact analog of the client-side
`StreamConfigInput` record: serialization and parsing are mutually inverse
bijections between the two record types, both records consist of exactly
nine fields, and the field types agree position by position, so both ends
parse/serialize the same structure. -/
theorem C1_wire_message_exact_analog :
    (∀ c : StreamConfigInput, c.toWire.toConfig = c) ∧
    (∀ w : NegotiationWireMessage, w.toConfig.toWire = w) ∧
    streamConfigInputFields.map Prod.snd = negotiationWireFields.map Prod.snd ∧
    streamConfigInputFields.length = 9 := by
  refine ⟨fun c => rfl, fun w => rfl, ?_, ?_⟩ <;> decide

/-- C2 counterexample: the pose record passed across the render interface,
`struct EyeInput`, does not contain a timestamp component: its declared
field list is exactly orientation, position and the four field-of-view
angles, and no field named `timestamp` (or of any non-float shape that
could carry one) appears. -/
theorem C2_counterexample_eyeinput_has_no_timestamp :
    (eyeInputFields.map Prod.fst =
      ["orientation", "position", "fovLeft", "fovRight", "fovTop", "fovBottom"]) ∧
    (∀ f ∈ eyeInputFields, f.fst ≠ "timestamp") ∧
    (∀ f ∈ eyeInputFields,
      f.snd = CTy.floatArr 4 ∨ f.snd = CTy.floatArr 3 ∨ f.snd = CTy.cfloat) := by
  refine ⟨?_, ?_, ?_⟩ <;> decide

/-- C2 (amended): every pose value carried to the renderer consists of an
orientation of 4 floats, a position of 3 floats and the per-eye
field-of-view angles (left, right, top, bottom) — exactly these six
declared fields and nothing else; the timestamp of the spec's Pose entity
is not part of the record crossing the render interface. -/
theorem C2_eyeinput_components :
    eyeInputFields =
      [("orientation", CTy.floatArr 4),
       ("position", CTy.floatArr 3),
       ("fovLeft", CTy.cfloat),
       ("fovRight", CTy.cfloat),
       ("fovTop", CTy.cfloat),
       ("fovBottom", CTy.cfloat)] ∧
    "timestamp" ∉ eyeInputFields.map Prod.fst := by
  exact ⟨rfl, by decide⟩

end ALVR

namespace ALVR

/-! ## `bindings.h` : native render entry points -/

/-- Parameter type shapes of the `extern "C"` render entry points. -/
inductive CParamTy where
  | cint : CParamTy
  | intArr : Nat → CParamTy
  | intPtrArr : Nat → CParamTy
  | bytePtr : CParamTy
  | voidPtr : CParamTy
  | eyeInputArr : Nat → CParamTy
  | streamConfigVal : CParamTy
  deriving DecidableEq, Repr

/-- Return type shapes of the `extern "C"` render entry points:
either `void` or an array of `n` texture handles. -/
inductive CRetTy where
  | rvoid : CRetTy
  | handles : Nat → CRetTy
  deriving DecidableEq, Repr

/-- The signature of one `extern "C"` entry point. -/
structure CSig where
  name : String
  args : List CParamTy
  ret : CRetTy
  deriving DecidableEq, Repr

/-- The render/graphics boundary declared in `bindings.h` (the
`graphics.h` block), signature by signature, in declaration order. -/
def graphicsBindings : List CSig :=
  [⟨"initGraphicsNative", [], CRetTy.rvoid⟩,
   ⟨"destroyGraphicsNative", [], CRetTy.rvoid⟩,
   ⟨"prepareLobbyRoom",
     [CParamTy.cint, CParamTy.cint, CParamTy.intPtrArr 2, CParamTy.cint], CRetTy.rvoid⟩,
   ⟨"destroyRenderers", [], CRetTy.rvoid⟩,
   ⟨"setStreamConfig", [CParamTy.streamConfigVal], CRetTy.rvoid⟩,
   ⟨"streamStartNative", [CParamTy.intPtrArr 2, CParamTy.cint], CRetTy.rvoid⟩,
   ⟨"updateLobbyHudTexture", [CParamTy.bytePtr], CRetTy.rvoid⟩,
   ⟨"renderLobbyNative", [CParamTy.eyeInputArr 2, CParamTy.intArr 2], CRetTy.rvoid⟩,
   ⟨"renderStreamNative", [CParamTy.voidPtr, CParamTy.intArr 2], CRetTy.rvoid⟩]

/-- The shape the spec assigns to `beginFrame`: two eye poses in, two
texture handles out. -/
def beginFrameShape (s : CSig) : Prop :=
  s.args = [CParamTy.eyeInputArr 2] ∧ s.ret = CRetTy.handles 2

/-- The shape the spec assigns to `presentLobby`: two eye poses and two
swapchain indices in, nothing out. -/
def presentLobbyShape (s : CSig) : Prop :=
  s.args = [CParamTy.eyeInputArr 2, CParamTy.intArr 2] ∧ s.ret = CRetTy.rvoid

/-- The shape the spec assigns to `presentStream`: a decoded buffer and
two swapchain indices in, nothing out. -/
def presentStreamShape (s : CSig) : Prop :=
  s.args = [CParamTy.voidPtr, CParamTy.intArr 2] ∧ s.ret = CRetTy.rvoid

instance (s : CSig) : Decidable (beginFrameShape s) := by
  unfold beginFrameShape; infer_instance

instance (s : CSig) : Decidable (presentLobbyShape s) := by
  unfold presentLobbyShape; infer_instance

instance (s : CSig) : Decidable (presentStreamShape s) := by
  unfold presentStreamShape; infer_instance

end ALVR

namespace ALVR

/-- C7 counterexample: the render boundary of `bindings.h` exposes no
entry point of the shape `beginFrame(eyePoses[2]) -> textureHandles[2]`;
in fact every declared entry point returns `void`, so the stated
three-entry-point boundary does not match the code. -/
theorem C7_counterexample_no_beginFrame :
    (∀ s ∈ graphicsBindings, ¬ beginFrameShape s) ∧
    (∀ s ∈ graphicsBindings, s.ret = CRetTy.rvoid) := by
  constructor <;> decide

/-- C7 (amended): the per-frame render entry points exposed by the core
are `renderLobbyNative`, with exactly the spec's `presentLobby` shape
(two eye poses and two swapchain indices), and `renderStreamNative`,
with exactly the spec's `presentStream` shape (a decoded hardware buffer
and two swapchain indices); there is no `beginFrame` returning texture
handles — swapchain textures are instead registered up front through
`prepareLobbyRoom`/`streamStartNative`. -/
theorem C7_render_boundary_shapes :
    (∃ s ∈ graphicsBindings, s.name = "renderLobbyNative" ∧ presentLobbyShape s) ∧
    (∃ s ∈ graphicsBindings, s.name = "renderStreamNative" ∧ presentStreamShape s) ∧
    (∀ s ∈ graphicsBindings, ¬ beginFrameShape s) ∧
    (∃ s ∈ graphicsBindings, s.name = "prepareLobbyRoom" ∧
      CParamTy.intPtrArr 2 ∈ s.args) ∧
    (∃ s ∈ graphicsBindings, s.name = "streamStartNative" ∧
      CParamTy.intPtrArr 2 ∈ s.args) := by
  refine ⟨?_, ?_, ?_, ?_, ?_⟩ <;> decide

end ALVR

namespace ALVR

/-! ## `Settings.h` : process-wide server configuration -/

/-- Modelled from the spec: `EyeFov` comes from `ALVR-common/packet_types.h`,
which is not among the source files; the spec's Pose entity gives the
per-eye field of view as left/right/top/bottom angles. -/
structure EyeFov where
  left : ℚ
  right : ℚ
  top : ℚ
  bottom : ℚ

/-- The data members of `class Settings` from `Settings.h`, in declaration
order, with C types translated per the embedding conventions. -/
structure Settings where
  m_loaded : Bool
  m_universeId : Nat
  mSerialNumber : String
  mTrackingSystemName : String
  mModelNumber : String
  mDriverVersion : String
  mManufacturerName : String
  mRenderModelName : String
  mRegisteredDeviceType : String
  m_nAdapterIndex : Int
  m_DriverTestMode : Nat
  m_refreshRate : Int
  m_renderWidth : Nat
  m_renderHeight : Nat
  m_recommendedTargetWidth : Int
  m_recommendedTargetHeight : Int
  m_eyeFov : Fin 2 → EyeFov
  m_flSecondsFromVsyncToPhotons : ℚ
  m_flIPD : ℚ
  m_enableFoveatedRendering : Bool
  m_foveationCenterSizeX : ℚ
  m_foveationCenterSizeY : ℚ
  m_foveationCenterShiftX : ℚ
  m_foveationCenterShiftY : ℚ
  m_foveationEdgeRatioX : ℚ
  m_foveationEdgeRatioY : ℚ
  m_enableColorCorrection : Bool
  m_brightness : ℚ
  m_contrast : ℚ
  m_saturation : ℚ
  m_gamma : ℚ
  m_sharpening : ℚ
  m_codec : Int
  mEncodeBitrateMBs : Nat
  m_enableAdaptiveBitrate : Bool
  m_adaptiveBitrateMaximum : Nat
  m_adaptiveBitrateTarget : Nat
  m_adaptiveBitrateUseFrametime : Bool
  m_adaptiveBitrateTargetMaximum : Nat
  m_adaptiveBitrateTargetOffset : Int
  m_adaptiveBitrateThreshold : Nat
  m_adaptiveBitrateUpRate : Nat
  m_adaptiveBitrateDownRate : Nat
  m_adaptiveBitrateLightLoadThreshold : ℚ
  m_use10bitEncoder : Bool
  m_usePreproc : Bool
  m_preProcSigma : Nat
  m_preProcTor : Nat
  m_encoderQualityPreset : Nat
  m_rateControlMode : Nat
  m_entropyCoding : Nat
  m_force_sw_encoding : Bool
  m_swThreadCount : Nat
  m_controllerTrackingSystemName : String
  m_controllerManufacturerName : String
  m_controllerModelNumber : String
  m_controllerRenderModelNameLeft : String
  m_controllerRenderModelNameRight : String
  m_controllerSerialNumber : String
  m_controllerTypeLeft : String
  m_controllerTypeRight : String
  mControllerRegisteredDeviceType : String
  m_controllerInputProfilePath : String
  m_disableController : Bool
  m_linearVelocityCutoff : ℚ
  m_angularVelocityCutoff : ℚ
  m_OffsetPos : Fin 3 → ℚ
  m_EnableOffsetPos : Bool
  m_leftControllerPositionOffset : Fin 3 → ℚ
  m_leftControllerRotationOffset : Fin 3 → ℚ
  m_overrideTriggerThreshold : Bool
  m_triggerThreshold : ℚ
  m_overrideGripThreshold : Bool
  m_gripThreshold : ℚ
  m_hapticsIntensity : ℚ
  m_hapticsAmplitudeCurve : ℚ
  m_hapticsMinDuration : ℚ
  m_hapticsLowDurationAmplitudeMultiplier : ℚ
  m_hapticsLowDurationRange : ℚ
  m_causePacketLoss : Int
  m_trackingFrameOffset : Int
  m_force3DOF : Bool
  m_aggressiveKeyframeResend : Bool
  m_captureLayerDDSTrigger : Bool
  m_captureComposedDDSTrigger : Bool
  m_controllerMode : Int
  m_TrackingRefOnly : Bool
  m_enableViveTrackerProxy : Bool
  m_useHeadsetTrackingSystem : Bool
  m_videoPacketSize : Int
  m_enableLinuxVulkanAsync : Bool
  m_nvencTuningPreset : Nat
  m_nvencMultiPass : Nat
  m_nvencAdaptiveQuantizationMode : Nat
  m_nvencLowDelayKeyFrameScale : Int
  m_nvencRefreshRate : Int
  m_nvencEnableIntraRefresh : Bool
  m_nvencIntraRefreshPeriod : Int
  m_nvencIntraRefreshCount : Int
  m_nvencMaxNumRefFrames : Int
  m_nvencGopLength : Int
  m_nvencPFrameStrategy : Int
  m_nvencRateControlMode : Int
  m_nvencRcBufferSize : Int
  m_nvencRcInitialDelay : Int
  m_nvencRcMaxBitrate : Int
  m_nvencRcAverageBitrate : Int
  m_nvencEnableWeightedPrediction : Bool
  m_captureFrameDir : String

end ALVR

namespace ALVR

/-- The declared data members of `class Settings`, in order, with their
C types. -/
def settingsFields : List (String × CTy) :=
  [("m_loaded", CTy.cbool),
   ("m_universeId", CTy.cuint64),
   ("mSerialNumber", CTy.cstring),
   ("mTrackingSystemName", CTy.cstring),
   ("mModelNumber", CTy.cstring),
   ("mDriverVersion", CTy.cstring),
   ("mManufacturerName", CTy.cstring),
   ("mRenderModelName", CTy.cstring),
   ("mRegisteredDeviceType", CTy.cstring),
   ("m_nAdapterIndex", CTy.cint32),
   ("m_DriverTestMode", CTy.cuint64),
   ("m_refreshRate", CTy.cint),
   ("m_renderWidth", CTy.cuint32),
   ("m_renderHeight", CTy.cuint32),
   ("m_recommendedTargetWidth", CTy.cint32),
   ("m_recommendedTargetHeight", CTy.cint32),
   ("m_eyeFov", CTy.eyeFovArr 2),
   ("m_flSecondsFromVsyncToPhotons", CTy.cfloat),
   ("m_flIPD", CTy.cfloat),
   ("m_enableFoveatedRendering", CTy.cbool),
   ("m_foveationCenterSizeX", CTy.cfloat),
   ("m_foveationCenterSizeY", CTy.cfloat),
   ("m_foveationCenterShiftX", CTy.cfloat),
   ("m_foveationCenterShiftY", CTy.cfloat),
   ("m_foveationEdgeRatioX", CTy.cfloat),
   ("m_foveationEdgeRatioY", CTy.cfloat),
   ("m_enableColorCorrection", CTy.cbool),
   ("m_brightness", CTy.cfloat),
   ("m_contrast", CTy.cfloat),
   ("m_saturation", CTy.cfloat),
   ("m_gamma", CTy.cfloat),
   ("m_sharpening", CTy.cfloat),
   ("m_codec", CTy.cint),
   ("mEncodeBitrateMBs", CTy.cuint64),
   ("m_enableAdaptiveBitrate", CTy.cbool),
   ("m_adaptiveBitrateMaximum", CTy.cuint64),
   ("m_adaptiveBitrateTarget", CTy.cuint64),
   ("m_adaptiveBitrateUseFrametime", CTy.cbool),
   ("m_adaptiveBitrateTargetMaximum", CTy.cuint64),
   ("m_adaptiveBitrateTargetOffset", CTy.cint32),
   ("m_adaptiveBitrateThreshold", CTy.cuint64),
   ("m_adaptiveBitrateUpRate", CTy.cuint64),
   ("m_adaptiveBitrateDownRate", CTy.cuint64),
   ("m_adaptiveBitrateLightLoadThreshold", CTy.cfloat),
   ("m_use10bitEncoder", CTy.cbool),
   ("m_usePreproc", CTy.cbool),
   ("m_preProcSigma", CTy.cuint32),
   ("m_preProcTor", CTy.cuint32),
   ("m_encoderQualityPreset", CTy.cuint32),
   ("m_rateControlMode", CTy.cuint32),
   ("m_entropyCoding", CTy.cuint32),
   ("m_force_sw_encoding", CTy.cbool),
   ("m_swThreadCount", CTy.cuint32),
   ("m_controllerTrackingSystemName", CTy.cstring),
   ("m_controllerManufacturerName", CTy.cstring),
   ("m_controllerModelNumber", CTy.cstring),
   ("m_controllerRenderModelNameLeft", CTy.cstring),
   ("m_controllerRenderModelNameRight", CTy.cstring),
   ("m_controllerSerialNumber", CTy.cstring),
   ("m_controllerTypeLeft", CTy.cstring),
   ("m_controllerTypeRight", CTy.cstring),
   ("mControllerRegisteredDeviceType", CTy.cstring),
   ("m_controllerInputProfilePath", CTy.cstring),
   ("m_disableController", CTy.cbool),
   ("m_linearVelocityCutoff", CTy.cfloat),
   ("m_angularVelocityCutoff", CTy.cfloat),
   ("m_OffsetPos", CTy.floatArr 3),
   ("m_EnableOffsetPos", CTy.cbool),
   ("m_leftControllerPositionOffset", CTy.doubleArr 3),
   ("m_leftControllerRotationOffset", CTy.doubleArr 3),
   ("m_overrideTriggerThreshold", CTy.cbool),
   ("m_triggerThreshold", CTy.cfloat),
   ("m_overrideGripThreshold", CTy.cbool),
   ("m_gripThreshold", CTy.cfloat),
   ("m_hapticsIntensity", CTy.cfloat),
   ("m_hapticsAmplitudeCurve", CTy.cfloat),
   ("m_hapticsMinDuration", CTy.cfloat),
   ("m_hapticsLowDurationAmplitudeMultiplier", CTy.cfloat),
   ("m_hapticsLowDurationRange", CTy.cfloat),
   ("m_causePacketLoss", CTy.cint32),
   ("m_trackingFrameOffset", CTy.cint32),
   ("m_force3DOF", CTy.cbool),
   ("m_aggressiveKeyframeResend", CTy.cbool),
   ("m_captureLayerDDSTrigger", CTy.cbool),
   ("m_captureComposedDDSTrigger", CTy.cbool),
   ("m_controllerMode", CTy.cint),
   ("m_TrackingRefOnly", CTy.cbool),
   ("m_enableViveTrackerProxy", CTy.cbool),
   ("m_useHeadsetTrackingSystem", CTy.cbool),
   ("m_videoPacketSize", CTy.cint32),
   ("m_enableLinuxVulkanAsync", CTy.cbool),
   ("m_nvencTuningPreset", CTy.cuint32),
   ("m_nvencMultiPass", CTy.cuint32),
   ("m_nvencAdaptiveQuantizationMode", CTy.cuint32),
   ("m_nvencLowDelayKeyFrameScale", CTy.cint64),
   ("m_nvencRefreshRate", CTy.cint64),
   ("m_nvencEnableIntraRefresh", CTy.cbool),
   ("m_nvencIntraRefreshPeriod", CTy.cint64),
   ("m_nvencIntraRefreshCount", CTy.cint64),
   ("m_nvencMaxNumRefFrames", CTy.cint64),
   ("m_nvencGopLength", CTy.cint64),
   ("m_nvencPFrameStrategy", CTy.cint64),
   ("m_nvencRateControlMode", CTy.cint64),
   ("m_nvencRcBufferSize", CTy.cint64),
   ("m_nvencRcInitialDelay", CTy.cint64),
   ("m_nvencRcMaxBitrate", CTy.cint64),
   ("m_nvencRcAverageBitrate", CTy.cint64),
   ("m_nvencEnableWeightedPrediction", CTy.cbool),
   ("m_captureFrameDir", CTy.cstring)]

end ALVR

namespace ALVR

/-- C8: the process-wide `Settings` object contains every adaptive-bitrate
tunable the controller algorithm is specified over — hard maximum, up
rate, down rate, light-load threshold, the frame-time-mode flag, target
offset and target maximum — each as its own declared configuration field,
and all declared field names of the class are pairwise distinct. -/
theorem C8_adaptive_bitrate_fields_present :
    ("m_adaptiveBitrateMaximum", CTy.cuint64) ∈ settingsFields ∧
    ("m_adaptiveBitrateUpRate", CTy.cuint64) ∈ settingsFields ∧
    ("m_adaptiveBitrateDownRate", CTy.cuint64) ∈ settingsFields ∧
    ("m_adaptiveBitrateLightLoadThreshold", CTy.cfloat) ∈ settingsFields ∧
    ("m_adaptiveBitrateUseFrametime", CTy.cbool) ∈ settingsFields ∧
    ("m_adaptiveBitrateTargetOffset", CTy.cint32) ∈ settingsFields ∧
    ("m_adaptiveBitrateTargetMaximum", CTy.cuint64) ∈ settingsFields ∧
    (settingsFields.map Prod.fst).Nodup := by
  refine ⟨?_, ?_, ?_, ?_, ?_, ?_, ?_, ?_⟩ <;> decide

end ALVR

namespace ALVR

/-- Modelled from the spec: the configuration record handed to the codec
backend. The encoder implementation that reads `Settings` and programs
the codec SDK is not among the source files; section 6 says each
recognized tunable is "a pass-through knob, not interpreted by the
core", so the backend record carries one slot per tunable. -/
structure EncoderBackendConfig where
  rateControlMode : Nat
  gopLength : Int
  intraRefreshPeriod : Int
  intraRefreshCount : Int
  maxNumRefFrames : Int
  qualityPreset : Nat
  entropyCoding : Nat
  multiPass : Nat
  adaptiveQuantizationMode : Nat
  enableWeightedPrediction : Bool

/-- Modelled from the spec: the verbatim pass-through of the recognized
encoder tunables from the process-wide `Settings` to the codec backend
(section 6: each knob is passed through uninterpreted). -/
def passToBackend (s : Settings) : EncoderBackendConfig :=
  ⟨s.m_rateControlMode, s.m_nvencGopLength,
   s.m_nvencIntraRefreshPeriod, s.m_nvencIntraRefreshCount,
   s.m_nvencMaxNumRefFrames, s.m_encoderQualityPreset,
   s.m_entropyCoding, s.m_nvencMultiPass,
   s.m_nvencAdaptiveQuantizationMode, s.m_nvencEnableWeightedPrediction⟩

end ALVR

namespace ALVR

/-- C9: each recognized encoder tunable — rate-control mode, GOP length,
intra-refresh period and count, max reference frames, quality preset,
entropy coding mode, multi-pass mode, adaptive-quantization mode and
weighted-prediction flag — is a declared `Settings` configuration field,
and the value delivered to the codec backend equals the configured value
for every configuration (verbatim pass-through). -/
theorem C9_encoder_tunables_passthrough :
    (("m_rateControlMode", CTy.cuint32) ∈ settingsFields ∧
     ("m_nvencGopLength", CTy.cint64) ∈ settingsFields ∧
     ("m_nvencIntraRefreshPeriod", CTy.cint64) ∈ settingsFields ∧
     ("m_nvencIntraRefreshCount", CTy.cint64) ∈ settingsFields ∧
     ("m_nvencMaxNumRefFrames", CTy.cint64) ∈ settingsFields ∧
     ("m_encoderQualityPreset", CTy.cuint32) ∈ settingsFields ∧
     ("m_entropyCoding", CTy.cuint32) ∈ settingsFields ∧
     ("m_nvencMultiPass", CTy.cuint32) ∈ settingsFields ∧
     ("m_nvencAdaptiveQuantizationMode", CTy.cuint32) ∈ settingsFields ∧
     ("m_nvencEnableWeightedPrediction", CTy.cbool) ∈ settingsFields) ∧
    (∀ s : Settings,
      (passToBackend s).rateControlMode = s.m_rateControlMode ∧
      (passToBackend s).gopLength = s.m_nvencGopLength ∧
      (passToBackend s).intraRefreshPeriod = s.m_nvencIntraRefreshPeriod ∧
      (passToBackend s).intraRefreshCount = s.m_nvencIntraRefreshCount ∧
      (passToBackend s).maxNumRefFrames = s.m_nvencMaxNumRefFrames ∧
      (passToBackend s).qualityPreset = s.m_encoderQualityPreset ∧
      (passToBackend s).entropyCoding = s.m_entropyCoding ∧
      (passToBackend s).multiPass = s.m_nvencMultiPass ∧
      (passToBackend s).adaptiveQuantizationMode = s.m_nvencAdaptiveQuantizationMode ∧
      (passToBackend s).enableWeightedPrediction = s.m_nvencEnableWeightedPrediction) := by
  constructor
  · refine ⟨?_, ?_, ?_, ?_, ?_, ?_, ?_, ?_, ?_, ?_⟩ <;> decide
  · intro s
    exact ⟨rfl, rfl, rfl, rfl, rfl, rfl, rfl, rfl, rfl, rfl⟩

end ALVR

namespace ALVR

/-! ## `Settings.h` : singleton access discipline -/

/-- Access control of a C++ class member. -/
inductive Visibility where
  | priv : Visibility
  | pub : Visibility
  deriving DecidableEq, Repr

/-- Kind of a C++ class member relevant to instance creation and access. -/
inductive MemberKind where
  | staticDataSettings : MemberKind
  | dataMember : MemberKind
  | constructor : MemberKind
  | destructor : MemberKind
  | method : MemberKind
  | staticMethodSettingsRef : MemberKind
  | methodBool : MemberKind
  deriving DecidableEq, Repr

/-- One declared member of `class Settings`. -/
structure ClassMember where
  name : String
  vis : Visibility
  kind : MemberKind
  deriving DecidableEq, Repr

/-- The member declarations of `class Settings` other than the public
plain data members (those are listed in `settingsFields`): the private
static instance, the private `m_loaded` flag, the private constructor and
destructor, and the public methods, in declaration order. -/
def settingsClassMembers : List ClassMember :=
  [⟨"m_Instance", Visibility.priv, MemberKind.staticDataSettings⟩,
   ⟨"m_loaded", Visibility.priv, MemberKind.dataMember⟩,
   ⟨"Settings", Visibility.priv, MemberKind.constructor⟩,
   ⟨"~Settings", Visibility.priv, MemberKind.destructor⟩,
   ⟨"Load", Visibility.pub, MemberKind.method⟩,
   ⟨"Instance", Visibility.pub, MemberKind.staticMethodSettingsRef⟩,
   ⟨"IsLoaded", Visibility.pub, MemberKind.methodBool⟩]

/-- Identifiers of `Settings` objects defined by the translation unit:
the class declares exactly one, the private static `m_Instance`. -/
inductive SettingsObject where
  | mInstance : SettingsObject
  deriving DecidableEq, Repr

/-- The body of `Settings::Instance()`: `return m_Instance;` — every call
resolves to the one static object, independent of the call site. -/
def Settings.InstanceCall : Unit → SettingsObject :=
  fun _ => SettingsObject.mInstance

end ALVR

namespace ALVR

/-- C10: `Settings::Instance()` always returns a reference to the same
object, the private static `m_Instance`: any two calls resolve to the
same `SettingsObject`; the constructor and the destructor of the class
are declared private, the static instance itself is private, and
`Instance` is the only public member that yields a `Settings` reference
— so no other `Settings` object can be created and all components
observe the same configuration state. -/
theorem C10_settings_singleton :
    (∀ u v : Unit, Settings.InstanceCall u = Settings.InstanceCall v) ∧
    (∀ r : SettingsObject, r = SettingsObject.mInstance) ∧
    (∀ m ∈ settingsClassMembers,
      m.kind = MemberKind.constructor ∨ m.kind = MemberKind.destructor →
        m.vis = Visibility.priv) ∧
    (∀ m ∈ settingsClassMembers,
      m.kind = MemberKind.staticDataSettings → m.vis = Visibility.priv) ∧
    (∀ m ∈ settingsClassMembers,
      m.vis = Visibility.pub → m.kind = MemberKind.staticMethodSettingsRef →
        m.name = "Instance") ∧
    ⟨"Instance", Visibility.pub, MemberKind.staticMethodSettingsRef⟩ ∈
      settingsClassMembers := by
  refine ⟨fun u v => rfl, fun r => ?_, ?_, ?_, ?_, ?_⟩
  · cases r; rfl
  all_goals decide

end ALVR

namespace ALVR

/-! ## BitrateController (spec section 4.1) -/

/-- Modelled from the spec: the configuration of the closed-loop bitrate
controller (section 4.1); the controller implementation itself is not
among the source files, only its tunables in `Settings.h`. Times are in
microseconds and the light-load threshold in per-mille, so every
comparison is exact integer arithmetic. -/
structure BitrateConfig where
  minBitrate : Int
  maxBitrate : Int
  upRate : Int
  downRate : Int
  lightLoadThresholdPm : Int
  frameBudgetUs : Int

/-- Modelled from the spec: one observation fed to
`BitrateController.observe` — `{encodeTimeMs, transmitTimeMs,
frameIntervalMs, packetLoss}` of section 4.1, with times in
microseconds. -/
structure BitrateObservation where
  encodeTimeUs : Int
  transmitTimeUs : Int
  frameIntervalUs : Int
  packetLoss : Bool

/-- Total round-trip time of one observation: encode plus transmit. -/
def BitrateObservation.roundTripUs (o : BitrateObservation) : Int :=
  o.encodeTimeUs + o.transmitTimeUs

/-- The controller's internal state: the current target bitrate. -/
structure BitrateState where
  target : Int

/-- Modelled from the spec: one `observe` step of the controller
(section 4.1). Round-trip over budget or packet loss decreases the
target by `downRate`, floored at the configured minimum; round-trip
under `budget × (1 − lightLoadThreshold)` increases it by `upRate`,
capped at the configured maximum; otherwise the target is kept. -/
def BitrateController.observe (cfg : BitrateConfig) (s : BitrateState)
    (o : BitrateObservation) : BitrateState :=
  if cfg.frameBudgetUs < o.roundTripUs ∨ o.packetLoss = true then
    ⟨max cfg.minBitrate (s.target - cfg.downRate)⟩
  else if 1000 * o.roundTripUs <
      cfg.frameBudgetUs * (1000 - cfg.lightLoadThresholdPm) then
    ⟨min cfg.maxBitrate (s.target + cfg.upRate)⟩
  else s

/-- `currentTarget()` of the controller contract. -/
def BitrateController.currentTarget (s : BitrateState) : Int :=
  s.target

/-- Feeding a whole sequence of observations to the controller. -/
def BitrateController.run (cfg : BitrateConfig) (s : BitrateState)
    (obs : List BitrateObservation) : BitrateState :=
  obs.foldl (BitrateController.observe cfg) s

/-- One `observe` step keeps the target inside the configured bounds. -/
theorem observe_bounds (cfg : BitrateConfig)
    (hmm : cfg.minBitrate ≤ cfg.maxBitrate)
    (hup : 0 ≤ cfg.upRate) (hdown : 0 ≤ cfg.downRate)
    (s : BitrateState) (o : BitrateObservation)
    (h1 : cfg.minBitrate ≤ s.target) (h2 : s.target ≤ cfg.maxBitrate) :
    cfg.minBitrate ≤ (BitrateController.observe cfg s o).target ∧
    (BitrateController.observe cfg s o).target ≤ cfg.maxBitrate := by
  unfold BitrateController.observe
  split
  · exact ⟨le_max_left _ _, max_le hmm (by linarith)⟩
  · split
    · exact ⟨le_min hmm (by linarith), min_le_left _ _⟩
    · exact ⟨h1, h2⟩

/-- Any observation sequence keeps the target inside the bounds. -/
theorem run_bounds (cfg : BitrateConfig)
    (hmm : cfg.minBitrate ≤ cfg.maxBitrate)
    (hup : 0 ≤ cfg.upRate) (hdown : 0 ≤ cfg.downRate)
    (obs : List BitrateObservation) :
    ∀ s : BitrateState,
      cfg.minBitrate ≤ s.target → s.target ≤ cfg.maxBitrate →
      cfg.minBitrate ≤ (BitrateController.run cfg s obs).target ∧
      (BitrateController.run cfg s obs).target ≤ cfg.maxBitrate := by
  induction obs with
  | nil => exact fun s h1 h2 => ⟨h1, h2⟩
  | cons o rest ih =>
      intro s h1 h2
      have h := observe_bounds cfg hmm hup hdown s o h1 h2
      exact ih _ h.1 h.2

end ALVR

namespace ALVR

/-- C3: for every sequence of observations, the target returned by
`currentTarget()` never leaves the configured `[min, max]` interval —
never below the hard floor, never above the hard ceiling — and for
equal-magnitude deviation `d` from the frame budget (one observation `d`
over budget, the other `d` under), the magnitude of the decrease step
equals `downRate`, the magnitude of the increase step equals `upRate`,
and the former is at least the latter (asymmetric response). Rates are
nonnegative as in the source, where they are unsigned configuration
values, and `upRate ≤ downRate` per the spec's asymmetric-control
requirement. -/
theorem C3_bitrate_bounds_and_asymmetry (cfg : BitrateConfig)
    (hmm : cfg.minBitrate ≤ cfg.maxBitrate)
    (hup : 0 ≤ cfg.upRate) (hdown : 0 ≤ cfg.downRate)
    (hdu : cfg.upRate ≤ cfg.downRate) :
    (∀ (s : BitrateState) (obs : List BitrateObservation),
      cfg.minBitrate ≤ s.target → s.target ≤ cfg.maxBitrate →
      cfg.minBitrate ≤
          BitrateController.currentTarget (BitrateController.run cfg s obs) ∧
      BitrateController.currentTarget (BitrateController.run cfg s obs) ≤
          cfg.maxBitrate) ∧
    (∀ (s : BitrateState) (o₁ o₂ : BitrateObservation) (d : Int),
      0 < d →
      o₁.roundTripUs = cfg.frameBudgetUs + d →
      o₂.roundTripUs = cfg.frameBudgetUs - d →
      1000 * o₂.roundTripUs <
        cfg.frameBudgetUs * (1000 - cfg.lightLoadThresholdPm) →
      o₂.packetLoss = false →
      cfg.minBitrate ≤ s.target - cfg.downRate →
      s.target + cfg.upRate ≤ cfg.maxBitrate →
      s.target - (BitrateController.observe cfg s o₁).target = cfg.downRate ∧
      (BitrateController.observe cfg s o₂).target - s.target = cfg.upRate ∧
      cfg.upRate ≤ cfg.downRate) := by
  constructor
  · exact fun s obs h1 h2 => run_bounds cfg hmm hup hdown obs s h1 h2
  · intro s o₁ o₂ d hd h₁ h₂ hlight hnp hfloor hcap
    refine ⟨?_, ?_, hdu⟩
    · have hc : cfg.frameBudgetUs < o₁.roundTripUs ∨ o₁.packetLoss = true :=
        Or.inl (by omega)
      unfold BitrateController.observe
      rw [if_pos hc, max_eq_right hfloor]
      ring
    · have hc : ¬ (cfg.frameBudgetUs < o₂.roundTripUs ∨ o₂.packetLoss = true) := by
        rintro (h | h)
        · omega
        · rw [hnp] at h
          exact Bool.false_ne_true h
      unfold BitrateController.observe
      rw [if_neg hc, if_pos hlight, min_eq_right hcap]
      ring

/-- C3 witness: the spec's example configuration `min=5, max=50, upRate=1,
downRate=5, lightLoadThreshold=0.2, frame budget=16.6ms`, a start target
of 10, the spec's observation trace (five light-load frames then one
over-budget frame), and a deviation of 3.4ms on either side of the
budget. -/
theorem C3_bitrate_bounds_and_asymmetry_witness :
    ((5:Int) ≤ BitrateController.currentTarget
        (BitrateController.run ⟨5, 50, 1, 5, 200, 16600⟩ ⟨10⟩
          [⟨5000, 5000, 16600, false⟩, ⟨5000, 5000, 16600, false⟩,
           ⟨5000, 5000, 16600, false⟩, ⟨5000, 5000, 16600, false⟩,
           ⟨5000, 5000, 16600, false⟩, ⟨10000, 10000, 16600, false⟩]) ∧
      BitrateController.currentTarget
        (BitrateController.run ⟨5, 50, 1, 5, 200, 16600⟩ ⟨10⟩
          [⟨5000, 5000, 16600, false⟩, ⟨5000, 5000, 16600, false⟩,
           ⟨5000, 5000, 16600, false⟩, ⟨5000, 5000, 16600, false⟩,
           ⟨5000, 5000, 16600, false⟩, ⟨10000, 10000, 16600, false⟩]) ≤ 50) ∧
    ((10:Int) - (BitrateController.observe ⟨5, 50, 1, 5, 200, 16600⟩ ⟨10⟩
        ⟨10000, 10000, 16600, false⟩).target = 5 ∧
      (BitrateController.observe ⟨5, 50, 1, 5, 200, 16600⟩ ⟨10⟩
        ⟨6600, 6600, 16600, false⟩).target - 10 = 1 ∧
      (1:Int) ≤ 5) :=
  ⟨(C3_bitrate_bounds_and_asymmetry ⟨5, 50, 1, 5, 200, 16600⟩
      (by decide) (by decide) (by decide) (by decide)).1
    ⟨10⟩ _ (by decide) (by decide),
   (C3_bitrate_bounds_and_asymmetry ⟨5, 50, 1, 5, 200, 16600⟩
      (by decide) (by decide) (by decide) (by decide)).2
    ⟨10⟩ ⟨10000, 10000, 16600, false⟩ ⟨6600, 6600, 16600, false⟩ 3400
    (by decide) (by decide) (by decide) (by decide) (by decide)
    (by decide) (by decide)⟩

/-- The spec's worked example, modulo warm-up: from target 10, each
light-load observation raises the target one step, 10 → 11 → 12 → 13 →
14, and an over-budget observation then drops it to 9. -/
theorem bitrate_spec_scenario :
    (BitrateController.run ⟨5, 50, 1, 5, 200, 16600⟩ ⟨10⟩
      [⟨5000, 5000, 16600, false⟩, ⟨5000, 5000, 16600, false⟩,
       ⟨5000, 5000, 16600, false⟩, ⟨5000, 5000, 16600, false⟩,
       ⟨10000, 10000, 16600, false⟩]).target = 9 := by
  decide

end ALVR

namespace ALVR

/-! ## FrameScheduler sequence numbering (spec sections 3, 4.3, 4.4) -/

/-- Modelled from the spec: an encoded frame's network identity — its
session identifier and its per-session sequence number (section 3,
EncodedFrame; the scheduler implementation is not among the source
files). -/
structure FrameTag where
  sessionId : Nat
  seq : Nat
  deriving DecidableEq, Repr

/-- Modelled from the spec: the scheduler's transmit-side state — the
active session identifier and the next sequence number to assign. -/
structure SchedState where
  sessionId : Nat
  nextSeq : Nat
  deriving DecidableEq, Repr

/-- The two events that change the transmit-side numbering: transmitting
one frame, and a renegotiation that replaces the session. -/
inductive SchedEvent where
  | transmit : SchedEvent
  | renegotiate : SchedEvent
  deriving DecidableEq, Repr

/-- Modelled from the spec: one scheduler step (sections 4.3 and 4.4).
A transmitted frame carries the current session identifier and the
current counter value, and the counter advances; a renegotiation starts
a fresh session (fresh identifier) with the counter restarted at the
session floor value. -/
def schedStep (floorSeq : Nat) (st : SchedState) :
    SchedEvent → SchedState × Option FrameTag
  | SchedEvent.transmit =>
      (⟨st.sessionId, st.nextSeq + 1⟩, some ⟨st.sessionId, st.nextSeq⟩)
  | SchedEvent.renegotiate =>
      (⟨st.sessionId + 1, floorSeq⟩, none)

/-- Running the scheduler over an event list, collecting the transmitted
frames in order. -/
def schedRun (floorSeq : Nat) (st : SchedState) :
    List SchedEvent → SchedState × List FrameTag
  | [] => (st, [])
  | e :: es =>
      let step := schedStep floorSeq st e
      let rest := schedRun floorSeq step.1 es
      (rest.1, step.2.toList ++ rest.2)

/-- The ordering relation every transmitted trace satisfies: a later
frame of the same session has a strictly larger sequence number, and
session identifiers never go backwards. -/
def FrameOrder (f g : FrameTag) : Prop :=
  (f.sessionId = g.sessionId → f.seq < g.seq) ∧ f.sessionId ≤ g.sessionId

/-- Master invariant of the scheduler run: every transmitted frame is in
the current or a later session, frames of the current session carry at
least the current counter value, and the trace is ordered by
`FrameOrder`. -/
theorem schedRun_invariant (floorSeq : Nat) (events : List SchedEvent) :
    ∀ st : SchedState,
      (∀ f ∈ (schedRun floorSeq st events).2, st.sessionId ≤ f.sessionId) ∧
      (∀ f ∈ (schedRun floorSeq st events).2,
        f.sessionId = st.sessionId → st.nextSeq ≤ f.seq) ∧
      (schedRun floorSeq st events).2.Pairwise FrameOrder := by
  induction events with
  | nil =>
      intro st
      refine ⟨fun f hf => ?_, fun f hf => ?_, List.Pairwise.nil⟩ <;>
        simp only [schedRun, List.not_mem_nil] at hf
  | cons e es ih =>
      intro st
      cases e with
      | transmit =>
          obtain ⟨ihA, ihB, ihC⟩ := ih ⟨st.sessionId, st.nextSeq + 1⟩
          refine ⟨?_, ?_, ?_⟩
          · intro f hf
            simp only [schedRun, schedStep, Option.toList, List.cons_append,
              List.nil_append, List.mem_cons] at hf
            rcases hf with rfl | hf
            · exact le_refl _
            · exact ihA f hf
          · intro f hf
            simp only [schedRun, schedStep, Option.toList, List.cons_append,
              List.nil_append, List.mem_cons] at hf
            rcases hf with rfl | hf
            · exact fun _ => le_refl _
            · intro hsess
              exact le_trans (Nat.le_succ _) (ihB f hf hsess)
          · simp only [schedRun, schedStep, Option.toList, List.cons_append,
              List.nil_append]
            refine List.Pairwise.cons ?_ ihC
            intro g hg
            refine ⟨fun hsess => ?_, ihA g hg⟩
            exact Nat.lt_of_succ_le (ihB g hg hsess.symm)
      | renegotiate =>
          obtain ⟨ihA, ihB, ihC⟩ := ih ⟨st.sessionId + 1, floorSeq⟩
          refine ⟨?_, ?_, ?_⟩
          · intro f hf
            simp only [schedRun, schedStep, Option.toList, List.nil_append] at hf
            exact le_trans (Nat.le_succ _) (ihA f hf)
          · intro f hf
            simp only [schedRun, schedStep, Option.toList, List.nil_append] at hf
            intro hsess
            have hge : st.sessionId + 1 ≤ f.sessionId := ihA f hf
            omega
          · simp only [schedRun, schedStep, Option.toList, List.nil_append]
            exact ihC

end ALVR

namespace ALVR

/-- C4: within one session every transmitted frame's sequence number is
strictly greater than the previously transmitted frame's (the scheduler
never emits two frames of one session with equal or decreasing sequence
numbers); the whole session-tagged trace contains no repeated frame
identity, so sequence numbers are never reused across sessions (fresh
sessions are distinguished by a fresh session identifier); and after any
renegotiation the counter restarts at the session floor value: the next
transmitted frame of the fresh session carries exactly that value. -/
theorem C4_sequence_numbers (floorSeq sid : Nat) (events : List SchedEvent) :
    (schedRun floorSeq ⟨sid, floorSeq⟩ events).2.Pairwise
      (fun f g => f.sessionId = g.sessionId → f.seq < g.seq) ∧
    (schedRun floorSeq ⟨sid, floorSeq⟩ events).2.Nodup ∧
    (∀ st : SchedState,
      (schedStep floorSeq st SchedEvent.renegotiate).1.nextSeq = floorSeq ∧
      (schedStep floorSeq (schedStep floorSeq st SchedEvent.renegotiate).1
          SchedEvent.transmit).2 = some ⟨st.sessionId + 1, floorSeq⟩) := by
  obtain ⟨-, -, hC⟩ := schedRun_invariant floorSeq events ⟨sid, floorSeq⟩
  refine ⟨hC.imp (fun h => h.1), ?_, fun st => ⟨rfl, rfl⟩⟩
  refine hC.imp ?_
  intro f g h heq
  rw [heq] at h
  exact lt_irrefl g.seq (h.1 rfl)

end ALVR

namespace ALVR

/-! ## FoveationMapper (spec section 4.2) -/

/-- Modelled from the spec: the foveation parameters of `compute`
(section 4.2); the mapper implementation is not among the source files,
only the parameter record `StreamConfigInput` it is configured from. -/
structure FoveationParams where
  enableFoveation : Bool
  centerSizeX : ℚ
  centerSizeY : ℚ
  centerShiftX : ℚ
  centerShiftY : ℚ
  edgeRatioX : ℚ
  edgeRatioY : ℚ
  deriving DecidableEq

/-- One axis of the resolution mapping: the view extent, the full-density
center region (size fraction and shift), the peripheral density
reduction ratio, and the resulting encoded extent. -/
structure AxisGeometry where
  viewSize : ℚ
  centerSize : ℚ
  centerShift : ℚ
  edgeRatio : ℚ
  encodedSize : ℚ
  deriving DecidableEq

/-- The geometry produced by the mapper: one axis mapping per dimension. -/
structure FoveationGeometry where
  xAxis : AxisGeometry
  yAxis : AxisGeometry
  deriving DecidableEq

/-- The identity axis mapping: the whole axis is a full-density center,
no shift, no peripheral reduction, encoded extent equals view extent. -/
def identityAxis (size : ℚ) : AxisGeometry :=
  ⟨size, 1, 0, 1, size⟩

/-- Modelled from the spec: one axis of the foveated mapping — a center
fraction kept at full density and the remaining periphery reduced by the
edge ratio, giving the encoded extent
`size × (centerSize + (1 − centerSize) / edgeRatio)` (section 4.2). -/
def foveatedAxis (size centerSize shift ratio : ℚ) : AxisGeometry :=
  ⟨size, centerSize, shift, ratio, size * (centerSize + (1 - centerSize) / ratio)⟩

/-- Modelled from the spec: `FoveationMapper.compute(viewWidth,
viewHeight, params) -> FoveationGeometry` (section 4.2) — a pure
function of its inputs; with foveation disabled the geometry is the
identity mapping. -/
def FoveationMapper.compute (viewWidth viewHeight : ℚ)
    (p : FoveationParams) : FoveationGeometry :=
  if p.enableFoveation then
    ⟨foveatedAxis viewWidth p.centerSizeX p.centerShiftX p.edgeRatioX,
     foveatedAxis viewHeight p.centerSizeY p.centerShiftY p.edgeRatioY⟩
  else
    ⟨identityAxis viewWidth, identityAxis viewHeight⟩

/-- A geometry that resamples nothing: on both axes the encoded extent
equals the view extent, the center covers the whole axis at full
density, unshifted, and the peripheral ratio is 1. -/
def isIdentityGeometry (g : FoveationGeometry) : Prop :=
  g.xAxis.encodedSize = g.xAxis.viewSize ∧
  g.yAxis.encodedSize = g.yAxis.viewSize ∧
  g.xAxis.centerSize = 1 ∧ g.yAxis.centerSize = 1 ∧
  g.xAxis.centerShift = 0 ∧ g.yAxis.centerShift = 0 ∧
  g.xAxis.edgeRatio = 1 ∧ g.yAxis.edgeRatio = 1

instance (g : FoveationGeometry) : Decidable (isIdentityGeometry g) := by
  unfold isIdentityGeometry; infer_instance

end ALVR

namespace ALVR

/-- C5: `FoveationMapper.compute` is a pure function — identical
`(viewWidth, viewHeight, params)` inputs always yield identical
`FoveationGeometry` (it is a function of exactly these inputs, with no
hidden state in the model) — and whenever `enableFoveation` is false the
result is the identity mapping (no resampling), whatever the remaining
foveation parameters hold. -/
theorem C5_foveation_pure_and_identity :
    (∀ (w h : ℚ) (p : FoveationParams),
      FoveationMapper.compute w h p = FoveationMapper.compute w h p) ∧
    (∀ (w h : ℚ) (p : FoveationParams), p.enableFoveation = false →
      FoveationMapper.compute w h p = ⟨identityAxis w, identityAxis h⟩ ∧
      isIdentityGeometry (FoveationMapper.compute w h p)) := by
  refine ⟨fun w h p => rfl, fun w h p hp => ?_⟩
  have hc : FoveationMapper.compute w h p = ⟨identityAxis w, identityAxis h⟩ := by
    unfold FoveationMapper.compute
    rw [hp]
    simp only [Bool.false_eq_true, if_false]
  refine ⟨hc, ?_⟩
  rw [hc]
  exact ⟨rfl, rfl, rfl, rfl, rfl, rfl, rfl, rfl⟩

/-- C5 witness: a 1600×1600 view with foveation disabled but deliberately
odd leftover parameters (center size 7, shift −3, edge ratio 9) still
yields the identity geometry. -/
theorem C5_foveation_pure_and_identity_witness :
    FoveationMapper.compute 1600 1600 ⟨false, 7, 7, -3, -3, 9, 9⟩ =
      ⟨identityAxis 1600, identityAxis 1600⟩ ∧
    isIdentityGeometry
      (FoveationMapper.compute 1600 1600 ⟨false, 7, 7, -3, -3, 9, 9⟩) :=
  C5_foveation_pure_and_identity.2 1600 1600 ⟨false, 7, 7, -3, -3, 9, 9⟩ rfl

end ALVR

namespace ALVR

/-! ## StreamConfig negotiation invariant (spec sections 3, 4.4) -/

/-- The spec's StreamConfig invariant on the client record: view
dimensions positive, each center-size ratio in the half-open interval
(0, 1], each edge ratio at least 1. -/
def validStreamConfig (c : StreamConfigInput) : Prop :=
  0 < c.viewWidth ∧ 0 < c.viewHeight ∧
  0 < c.foveationCenterSizeX ∧ c.foveationCenterSizeX ≤ 1 ∧
  0 < c.foveationCenterSizeY ∧ c.foveationCenterSizeY ≤ 1 ∧
  1 ≤ c.foveationEdgeRatioX ∧ 1 ≤ c.foveationEdgeRatioY

instance (c : StreamConfigInput) : Decidable (validStreamConfig c) := by
  unfold validStreamConfig; infer_instance

/-- Modelled from the spec: the capability the client advertises in the
negotiation handshake — display resolution and refresh rate
(section 4.4). -/
structure ClientCapability where
  displayWidth : Nat
  displayHeight : Nat
  refreshRate : Nat
  deriving DecidableEq, Repr

/-- Modelled from the spec: the client-side acknowledgment check of the
handshake (section 4.4) — the client accepts a proposed configuration
only if it fits within the advertised display resolution and satisfies
the StreamConfig invariant, and rejects it otherwise. -/
def clientAccepts (cap : ClientCapability) (c : StreamConfigInput) : Bool :=
  decide (c.viewWidth ≤ cap.displayWidth) &&
  decide (c.viewHeight ≤ cap.displayHeight) &&
  decide (validStreamConfig c)

/-- Modelled from the spec: the one-round-trip negotiation
(section 4.4) — the host proposes a StreamConfig and the negotiation
produces it exactly when the client acknowledges; on rejection nothing
is produced. -/
def negotiate (cap : ClientCapability) (proposal : StreamConfigInput) :
    Option StreamConfigInput :=
  if clientAccepts cap proposal then some proposal else none

end ALVR

namespace ALVR

/-- C6: every `StreamConfigInput` produced by the negotiation — every
configuration the client goes on to consume — satisfies the StreamConfig
invariant: view width and height are positive, both foveation
center-size ratios lie in (0, 1], and both edge ratios are at least 1. -/
theorem C6_negotiated_config_valid (cap : ClientCapability)
    (proposal c : StreamConfigInput)
    (h : negotiate cap proposal = some c) :
    validStreamConfig c := by
  unfold negotiate at h
  by_cases hacc : clientAccepts cap proposal = true
  · rw [if_pos hacc] at h
    injection h with h
    subst h
    have := hacc
    unfold clientAccepts at this
    simp only [Bool.and_eq_true, decide_eq_true_eq] at this
    exact this.2
  · rw [if_neg hacc] at h
    exact absurd h (by simp)

/-- C6 witness: the host proposes a 1600×1600 foveated configuration
(center size 1, shift 0, edge ratio 2) to a 2000×2000@90 client; the
negotiation succeeds and the produced configuration satisfies the
invariant. -/
theorem C6_negotiated_config_valid_witness :
    negotiate ⟨2000, 2000, 90⟩ ⟨1600, 1600, true, 1, 1, 0, 0, 2, 2⟩ =
      some ⟨1600, 1600, true, 1, 1, 0, 0, 2, 2⟩ ∧
    validStreamConfig ⟨1600, 1600, true, 1, 1, 0, 0, 2, 2⟩ :=
  ⟨by decide,
   C6_negotiated_config_valid ⟨2000, 2000, 90⟩
     ⟨1600, 1600, true, 1, 1, 0, 0, 2, 2⟩
     ⟨1600, 1600, true, 1, 1, 0, 0, 2, 2⟩ (by decide)⟩

end ALVR
